import Mathlib

/-!
Verification development for the biomedgps repository.

The embedding covers the paged record fetcher `RecordResponse::get_records`
(src/model/core.rs), the `KnowledgeCuration` and `Subgraph` update/delete
operations (src/model/core.rs), and the HTTP handlers of `BiomedgpsApi`
(src/api/route.rs).  The query builder (`ComposeQuery` in
src/query/sql_builder.rs), the graph assembly operations
(src/model/graph.rs) and the request validators (src/api/schema.rs) are not
part of the delivered sources; where a claim depends on them they are
modelled from the specification, and each such definition says so in its
doc comment.

Machine integers: `page`/`page_size` are Rust `u64`; the subtraction and
multiplication in the offset computation are modelled with explicit
wrap-around modulo `2 ^ 64` (release-build semantics; a debug build would
panic at the same input instead).  Row ids (`i32`/`i64`) are modelled as
`Int`, timestamps as `Int` seconds.
-/

namespace Biomedgps

/-- A single-quote character as a string, used where the sourcequotes SQL
string literals; kept as a named constant so predicate texts can be written
without literal quote characters. -/
def sq : String := String.mk [Char.ofNat 39]

/-- Scalar filter value (spec section 3: `value: Scalar|List<Scalar>`). -/
inductive QScalar where
  | s (v : String)
  | i (v : Int)
deriving Repr, DecidableEq

/-- Filter leaf value: a scalar or a list of scalars (spec section 3). -/
inductive QValue where
  | scalar (v : QScalar)
  | list (vs : List QScalar)
deriving Repr, DecidableEq

/-- Filter leaf (wire format, spec section 6):
`{"operator": <op>, "field": <col>, "value": <scalar|array>}`. -/
structure QueryItem where
  field : String
  operator : String
  value : QValue
deriving Repr, DecidableEq

/-- Filter tree `ComposeQuery` of src/query/sql_builder.rs (declared by its
users in src/model/core.rs and src/api/route.rs): either a leaf `QueryItem`
or a combinator node with an operator (`and`/`or`) and child items. -/
inductive ComposeQuery where
  | queryItem (item : QueryItem)
  | composeQueryItem (operator : String) (items : List ComposeQuery)

/-- Modelled from the spec: scalar rendering inside the predicate text.
Section 9 records that the source "assembles predicate and INSERT/UPDATE
statements via direct string formatting of caller-controlled values";
string scalars are single-quoted SQL literals, numbers rendered bare. -/
def QScalar.format : QScalar → String
  | .s v => sq ++ v ++ sq
  | .i v => toString v

/-- Modelled from the spec: value rendering; a scalar list (for the `in`
operator) renders as a parenthesised comma-separated list. -/
def QValue.format : QValue → String
  | .scalar v => v.format
  | .list [] => "()"
  | .list (v :: vs) =>
      "(" ++ (vs.foldl (fun acc w => acc ++ ", " ++ w.format) v.format) ++ ")"

/-- Modelled from the spec: `QueryItem::format` (src/query/sql_builder.rs is
not among the delivered sources).  Per section 9 the source concatenates the
caller-controlled value directly into the predicate text, so a leaf renders
as `field operator value`. -/
def QueryItem.format (item : QueryItem) : String :=
  item.field ++ " " ++ item.operator ++ " " ++ item.value.format

mutual
/-- Modelled from the spec: `ComposeQuery::format` / `ComposeQueryItem::format`
(src/query/sql_builder.rs is not among the delivered sources).  Section 4.1:
AND/OR wrap each child compiled text in parentheses and join the pieces with
the combinator keyword; a leaf renders as the leaf text. -/
def ComposeQuery.format : ComposeQuery → String
  | .queryItem item => item.format
  | .composeQueryItem op items => ComposeQuery.formatItems op items

/-- Modelled from the spec: child list rendering for a combinator node,
parenthesising each child and joining with the combinator keyword. -/
def ComposeQuery.formatItems (op : String) : List ComposeQuery → String
  | [] => ""
  | [c] => "(" ++ c.format ++ ")"
  | c :: c2 :: rest =>
      "(" ++ c.format ++ ") " ++ op ++ " " ++ ComposeQuery.formatItems op (c2 :: rest)
end

/-! ### RecordResponse::get_records (src/model/core.rs lines 244-308) -/

/-- Modulus of Rust `u64` arithmetic. -/
def U64 : Nat := 2 ^ 64

/-- Wrapping `u64` subtraction (release-build Rust semantics). -/
def u64Sub (a b : Nat) : Nat := (a % U64 + (U64 - b % U64)) % U64

/-- Wrapping `u64` multiplication (release-build Rust semantics). -/
def u64Mul (a b : Nat) : Nat := a * b % U64

/-- The LIMIT/OFFSET pair of the bounded query. -/
structure PageWindow where
  limit : Nat
  offset : Nat
deriving Repr, DecidableEq

/-- Embeds the pagination branch of `get_records` (core.rs:268-285): when
`page` and `page_size` are both absent there is no window; otherwise the
missing one defaults (`page` to 1, `page_size` to 10), `limit = page_size`
and `offset = (page - 1) * page_size` in `u64` arithmetic. -/
def pageWindow (page page_size : Option Nat) : Option PageWindow :=
  match page, page_size with
  | none, none => none
  | p, ps =>
      let page := p.getD 1
      let page_size := ps.getD 10
      some { limit := page_size, offset := u64Mul (u64Sub page 1) page_size }

/-- Embeds the `query_str` computation of `get_records` (core.rs:252-260):
format the query if present, else the empty string; an empty string becomes
the always-true predicate `1=1`. -/
def queryStrOf (query : Option ComposeQuery) : String :=
  let q := match query with
    | some cq => cq.format
    | none => ""
  if q = "" then "1=1" else q

/-- Embeds the `order_by_str` computation of `get_records` (core.rs:262-266). -/
def orderByStrOf (order_by : Option String) : String :=
  match order_by with
  | none => ""
  | some ob => "ORDER BY " ++ ob

/-- Renders the pagination fragment of `get_records` (core.rs:284):
`LIMIT {limit} OFFSET {offset}`, or the empty string when unpaged. -/
def paginationStrOf (w : Option PageWindow) : String :=
  match w with
  | none => ""
  | some w => "LIMIT " ++ toString w.limit ++ " OFFSET " ++ toString w.offset

/-- Embeds the bounded SELECT text of `get_records` (core.rs:287-290):
`SELECT * FROM {table} WHERE {query_str} {order_by_str} {pagination_str}`. -/
def selectSql (table_name : String) (query : Option ComposeQuery)
    (page page_size : Option Nat) (order_by : Option String) : String :=
  "SELECT * FROM " ++ table_name ++ " WHERE " ++ queryStrOf query ++ " " ++
    orderByStrOf order_by ++ " " ++ paginationStrOf (pageWindow page page_size)

/-- Embeds the COUNT text of `get_records` (core.rs:296):
`SELECT COUNT(*) FROM {table} WHERE {query_str}`. -/
def countSql (table_name : String) (query : Option ComposeQuery) : String :=
  "SELECT COUNT(*) FROM " ++ table_name ++ " WHERE " ++ queryStrOf query

/-- Denotation of the WHERE clause over a stored row: no filter compiles to
`1=1`, which every row satisfies; otherwise the storage engine (an external
collaborator, spec section 1) evaluates the compiled predicate, abstracted
here as `evalQ`. -/
def whereHolds (evalQ : ComposeQuery → σ → Bool) (query : Option ComposeQuery)
    (row : σ) : Bool :=
  match query with
  | none => true
  | some q => evalQ q row

/-- Storage-engine semantics of `LIMIT l OFFSET o` on the matching rows. -/
def applyWindow (w : Option PageWindow) (rows : List σ) : List σ :=
  match w with
  | none => rows
  | some w => (rows.drop w.offset).take w.limit

/-- The response shape of `RecordResponse` (core.rs:209-230). -/
structure RecordResponse (σ : Type) where
  records : List σ
  total : Nat
  page : Nat
  page_size : Nat
deriving Repr, DecidableEq

/-- One run of `get_records`: the SQL statements sent to storage, in order,
and the assembled response. -/
structure QueryRun (σ : Type) where
  queries : List String
  response : RecordResponse σ
deriving Repr, DecidableEq

/-- Embeds `RecordResponse::get_records` (core.rs:244-308).  The table is a
list of rows; the two emitted statements are the bounded SELECT and the
unbounded COUNT; `records` is the window applied to the rows matching the
predicate, `total` the full match count, and the echoed `page`/`page_size`
are `page.unwrap_or(0)` / `page_size.unwrap_or(0)`. -/
def get_records (table_name : String) (table : List σ)
    (evalQ : ComposeQuery → σ → Bool) (query : Option ComposeQuery)
    (page page_size : Option Nat) (order_by : Option String) : QueryRun σ :=
  let matched := table.filter (whereHolds evalQ query)
  { queries := [selectSql table_name query page page_size order_by,
                countSql table_name query]
    response := { records := applyWindow (pageWindow page page_size) matched
                  total := matched.length
                  page := page.getD 0
                  page_size := page_size.getD 0 } }

/-! ### KnowledgeCuration and Subgraph rows (src/model/core.rs) -/

/-- Storage-layer failure modes relevant here: `fetch_one` finding no row
(sqlx `RowNotFound`) and the statement being rejected by the engine. -/
inductive DbError where
  | rowNotFound
  | queryError
deriving Repr, DecidableEq

/-- The `KnowledgeCuration` struct (core.rs:688-736). -/
structure KnowledgeCuration where
  relation_id : Int
  relation_type : String
  source_name : String
  source_type : String
  source_id : String
  target_name : String
  target_type : String
  target_id : String
  key_sentence : String
  created_at : Int
  curator : String
  pmid : Int
deriving Repr, DecidableEq

/-- A stored row of `biomedgps_knowledge_curation`: the table's `id` column
(used by the WHERE clauses; not a struct field) plus the struct columns. -/
structure KnowledgeCurationRow where
  id : Int
  data : KnowledgeCuration
deriving Repr, DecidableEq

/-- The per-row effect of the UPDATE statement of
`KnowledgeCuration::update` (core.rs:764): on the row whose `id` matches, the
SET list assigns `relation_type`, `source_name`, `source_type`, `source_id`,
`target_name`, `target_type`, `target_id`, `key_sentence`,
`created_at = now()` and `pmid`; `curator` and `relation_id` are absent from
the SET list, so they keep their stored values.  Other rows are untouched. -/
def applySet (payload : KnowledgeCuration) (now : Int) (id : Int)
    (r : KnowledgeCurationRow) : KnowledgeCurationRow :=
  if r.id == id then
    { r with data := { relation_id := r.data.relation_id
                       relation_type := payload.relation_type
                       source_name := payload.source_name
                       source_type := payload.source_type
                       source_id := payload.source_id
                       target_name := payload.target_name
                       target_type := payload.target_type
                       target_id := payload.target_id
                       key_sentence := payload.key_sentence
                       created_at := now
                       curator := r.data.curator
                       pmid := payload.pmid } }
  else r

/-- Embeds `KnowledgeCuration::update` (core.rs:759-780): run the UPDATE with
RETURNING *, then `fetch_one`, which fails with `RowNotFound` when no row
matched.  Returns the returned row and the new table contents. -/
def KnowledgeCuration.update (payload : KnowledgeCuration)
    (db : List KnowledgeCurationRow) (id : Int) (now : Int) :
    Except DbError (KnowledgeCuration × List KnowledgeCurationRow) :=
  let newDb := db.map (applySet payload now id)
  match newDb.find? (fun r => r.id == id) with
  | some r => .ok (r.data, newDb)
  | none => .error .rowNotFound

/-- Embeds `KnowledgeCuration::delete` (core.rs:782-791): DELETE with
RETURNING * and `fetch_one`; no matching row means `RowNotFound` and the
table is unchanged. -/
def KnowledgeCuration.delete (db : List KnowledgeCurationRow) (id : Int) :
    Except DbError (KnowledgeCuration × List KnowledgeCurationRow) :=
  match db.find? (fun r => r.id == id) with
  | some r => .ok (r.data, db.filter (fun r => !(r.id == id)))
  | none => .error .rowNotFound

/-- The `Subgraph` struct (core.rs:948-984); the `id` column is a struct
field here (a UUID string). -/
structure Subgraph where
  id : String
  name : String
  description : Option String
  payload : String
  created_time : Int
  owner : String
  version : String
  db_version : String
  parent : Option String
deriving Repr, DecidableEq

/-- Embeds `Subgraph::update` (core.rs:1039-1050).  The statement text is
`UPDATE biomedgps_subgraph SET name = $1, description = $2, payload = $3,
WHERE id = $4 RETURNING *`: the stray comma before WHERE makes it invalid
SQL, so the storage engine rejects every call before touching any row. -/
def Subgraph.update (payload : Subgraph) (db : List Subgraph) (id : String) :
    Except DbError (Subgraph × List Subgraph) :=
  .error .queryError

/-- Embeds `Subgraph::delete` (core.rs:1052-1060): DELETE with RETURNING *
and `fetch_one`; no matching row means `RowNotFound`, table unchanged. -/
def Subgraph.delete (db : List Subgraph) (id : String) :
    Except DbError (Subgraph × List Subgraph) :=
  match db.find? (fun r => r.id == id) with
  | some r => .ok (r, db.filter (fun r => !(r.id == id)))
  | none => .error .rowNotFound

/-! ### Graph model and assembly operations (src/model/graph.rs is not among
the delivered sources; these are modelled from the spec) -/

/-- A graph node (spec section 3): identity is `id`; the label/type rides
along, further attributes do not affect the claims treated here. -/
structure GraphNode where
  id : String
  label : String
deriving Repr, DecidableEq

/-- A graph edge (spec section 3): identity is
`(source_id, target_id, relation_type)`. -/
structure GraphEdge where
  source_id : String
  target_id : String
  relation_type : String
deriving Repr, DecidableEq

/-- The request-scoped graph (spec section 3). -/
structure Graph where
  nodes : List GraphNode
  edges : List GraphEdge
deriving Repr, DecidableEq

/-- Modelled from the spec: `Graph::fetch_nodes_by_ids` (section 4.4) —
batch point-lookup of the entities whose primary key is in `ids`; unknown
ids are silently omitted; no edges are produced. -/
def fetch_nodes_by_ids (entities : List GraphNode) (ids : List String) :
    Graph :=
  { nodes := entities.filter (fun n => ids.contains n.id), edges := [] }

/-- Modelled from the spec: `Graph::auto_connect_nodes` (section 4.4) —
nodes are `fetch_nodes_by_ids ids`; edges are all relations whose
`source_id` AND `target_id` are both members of `ids`. -/
def auto_connect_nodes (entities : List GraphNode)
    (relations : List GraphEdge) (ids : List String) : Graph :=
  { nodes := (fetch_nodes_by_ids entities ids).nodes
    edges := relations.filter
      (fun e => ids.contains e.source_id && ids.contains e.target_id) }

/-! ### BiomedgpsApi handlers (src/api/route.rs) -/

/-- Modelled from the spec: the entity-id shape checked by the validators —
core.rs:20 gives the pattern, one colon separating a `[A-Za-z0-9-]+` head
from a `[a-z0-9A-Z._-]+` tail. -/
def entityIdValid (s : String) : Bool :=
  match s.splitOn ":" with
  | [a, b] =>
      (!a.isEmpty) && (!b.isEmpty) &&
        a.toList.all (fun c => c.isAlphanum || c = Char.ofNat 45) &&
        b.toList.all (fun c =>
          c.isAlphanum || c = Char.ofNat 45 || c = Char.ofNat 46 ||
            c = Char.ofNat 95)
  | _ => false

/-- Modelled from the spec: `NodeIdsQuery` validation (src/api/schema.rs is
not among the delivered sources).  Section 6: a comma-separated string of
entity ids; the empty string is accepted and means an empty result, not an
error. -/
def nodeIdsValid (s : String) : Bool :=
  s = "" || (s.splitOn ",").all entityIdValid

/-- Response of the graph endpoints. -/
inductive GraphResp where
  | ok (g : Graph)
  | badRequest (msg : String)
deriving Repr, DecidableEq

/-- Embeds `BiomedgpsApi::fetch_nodes` (route.rs:631-663): validate the
node-id string, answer the empty string with an empty graph before any
storage access, otherwise split on commas and run the batch lookup.  The
second component counts the storage queries issued. -/
def fetch_nodes (entities : List GraphNode) (node_ids : String) :
    GraphResp × Nat :=
  if nodeIdsValid node_ids = false then
    (.badRequest "Failed to validate node ids", 0)
  else if node_ids = "" then
    (.ok { nodes := [], edges := [] }, 0)
  else
    (.ok (fetch_nodes_by_ids entities (node_ids.splitOn ",")), 1)

/-- Embeds `BiomedgpsApi::fetch_edges_auto_connect_nodes`
(route.rs:672-704): same boundary handling as `fetch_nodes`; the non-empty
path issues the node lookup and the edge-discovery query.  The second
component counts the storage queries issued. -/
def fetch_edges_auto_connect_nodes (entities : List GraphNode)
    (relations : List GraphEdge) (node_ids : String) : GraphResp × Nat :=
  if nodeIdsValid node_ids = false then
    (.badRequest "Failed to validate node ids", 0)
  else if node_ids = "" then
    (.ok { nodes := [], edges := [] }, 0)
  else
    (.ok (auto_connect_nodes entities relations (node_ids.splitOn ",")), 2)

/-- Response of the record-list endpoints. -/
inductive RecordsResp (σ : Type) where
  | ok (r : RecordResponse σ)
  | badRequest (msg : String)
deriving Repr, DecidableEq

/-- True exactly on the bad-request responses. -/
def RecordsResp.isBadRequest : RecordsResp σ → Bool
  | .badRequest _ => true
  | _ => false

/-- Embeds `BiomedgpsApi::fetch_entities` (route.rs:75-126): a missing
query string becomes the empty string; an empty string means no filter; a
non-empty string is parsed as JSON and a parse failure answers bad request
before any storage access.  `parseQuery` abstracts the serde_json
deserialization of `ComposeQuery` (src/query/sql_builder.rs is not among
the delivered sources).  The second component is the list of SQL statements
sent to storage. -/
def fetch_entities (parseQuery : String → Option ComposeQuery)
    (table : List σ) (evalQ : ComposeQuery → σ → Bool)
    (page page_size : Option Nat) (query_str : Option String) :
    RecordsResp σ × List String :=
  let qs := query_str.getD ""
  if qs = "" then
    let run := get_records "biomedgps_entity" table evalQ none
      page page_size (some "id ASC")
    (.ok run.response, run.queries)
  else
    match parseQuery qs with
    | none => (.badRequest "Failed to parse query string", [])
    | some q =>
        let run := get_records "biomedgps_entity" table evalQ (some q)
          page page_size (some "id ASC")
        (.ok run.response, run.queries)

/-- Embeds `BiomedgpsApi::fetch_relations` (route.rs:311-371): like
`fetch_entities` over `biomedgps_relation`, preceded by the
`PaginationQuery::new` check, abstracted as `paginationOk` (src/api/schema.rs
is not among the delivered sources); its failure also answers bad request
before any storage access. -/
def fetch_relations (paginationOk : Option Nat → Option Nat → Option String → Bool)
    (parseQuery : String → Option ComposeQuery)
    (table : List σ) (evalQ : ComposeQuery → σ → Bool)
    (page page_size : Option Nat) (query_str : Option String) :
    RecordsResp σ × List String :=
  if paginationOk page page_size query_str = false then
    (.badRequest "Failed to parse query string", [])
  else
    let qs := query_str.getD ""
    if qs = "" then
      let run := get_records "biomedgps_relation" table evalQ none
        page page_size (some "id ASC")
      (.ok run.response, run.queries)
    else
      match parseQuery qs with
      | none => (.badRequest "Failed to parse query string", [])
      | some q =>
          let run := get_records "biomedgps_relation" table evalQ (some q)
            page page_size (some "id ASC")
          (.ok run.response, run.queries)

/-- Response of the create/update endpoints.  `notFound` is the NotFound
arm of the error taxonomy (spec section 7); the update handlers in
route.rs never produce it. -/
inductive PostResp (σ : Type) where
  | created (v : σ)
  | badRequest (msg : String)
  | notFound (msg : String)
deriving Repr, DecidableEq

/-- True exactly on the not-found responses. -/
def PostResp.isNotFound : PostResp σ → Bool
  | .notFound _ => true
  | _ => false

/-- Response of the delete endpoints. -/
inductive DeleteResp where
  | noContent
  | badRequest (msg : String)
  | notFound (msg : String)
deriving Repr, DecidableEq

/-- Embeds `BiomedgpsApi::put_curated_knowledge` (route.rs:238-271): reject
a negative id, validate the payload (`validate` abstracts the validator
derive of core.rs), then run `KnowledgeCuration::update`; an update failure
answers bad request and the stored table is the original one. -/
def put_curated_knowledge (validate : KnowledgeCuration → Bool)
    (db : List KnowledgeCurationRow) (payload : KnowledgeCuration)
    (id : Int) (now : Int) :
    PostResp KnowledgeCuration × List KnowledgeCurationRow :=
  if id < 0 then (.badRequest "Invalid id", db)
  else if validate payload = false then
    (.badRequest "Failed to validate payload", db)
  else
    match payload.update db id now with
    | .ok (kc, newDb) => (.created kc, newDb)
    | .error _ => (.badRequest "Failed to insert curated knowledge", db)

/-- Embeds `BiomedgpsApi::delete_curated_knowledge` (route.rs:280-302):
reject a negative id, then run `KnowledgeCuration::delete`; a delete failure
answers not found and the stored table is the original one. -/
def delete_curated_knowledge (db : List KnowledgeCurationRow) (id : Int) :
    DeleteResp × List KnowledgeCurationRow :=
  if id < 0 then (.badRequest "Invalid id", db)
  else
    match KnowledgeCuration.delete db id with
    | .ok (_, newDb) => (.noContent, newDb)
    | .error _ => (.notFound "Failed to delete curated knowledge", db)

/-- Embeds `BiomedgpsApi::put_subgraph` (route.rs:552-588): validate the id
(`subgraphIdOk` abstracts `SubgraphIdQuery::new`; src/api/schema.rs is not
among the delivered sources) and the payload, then run `Subgraph::update`;
a failure answers bad request and the stored table is the original one. -/
def put_subgraph (subgraphIdOk : String → Bool) (validate : Subgraph → Bool)
    (db : List Subgraph) (id : String) (payload : Subgraph) :
    PostResp Subgraph × List Subgraph :=
  if subgraphIdOk id = false then
    (.badRequest "Failed to parse subgraph id", db)
  else if validate payload = false then
    (.badRequest "Failed to validate subgraph", db)
  else
    match payload.update db id with
    | .ok (s, newDb) => (.created s, newDb)
    | .error _ => (.badRequest "Failed to update subgraph", db)

/-- Embeds `BiomedgpsApi::delete_subgraph` (route.rs:597-622): validate the
id, then run `Subgraph::delete`; a delete failure answers not found and the
stored table is the original one. -/
def delete_subgraph (subgraphIdOk : String → Bool) (db : List Subgraph)
    (id : String) : DeleteResp × List Subgraph :=
  if subgraphIdOk id = false then
    (.badRequest "Failed to validate subgraph id", db)
  else
    match Subgraph.delete db id with
    | .ok (_, newDb) => (.noContent, newDb)
    | .error _ => (.notFound "Failed to delete a subgraph", db)

/-! ### Sample values used by concrete evaluations -/

/-- A well-formed curated-knowledge payload. -/
def kcSample : KnowledgeCuration :=
  { relation_id := 0
    relation_type := "treats"
    source_name := "aspirin"
    source_type := "Chemical"
    source_id := "MESH:D001241"
    target_name := "pain"
    target_type := "Disease"
    target_id := "MESH:D010146"
    key_sentence := "sample sentence"
    created_at := 0
    curator := "alice"
    pmid := 12345 }

/-- A second payload differing from `kcSample` in every SET-list field. -/
def kcSample2 : KnowledgeCuration :=
  { relation_id := 9
    relation_type := "causes"
    source_name := "smoking"
    source_type := "Activity"
    source_id := "MESH:D012906"
    target_name := "cancer"
    target_type := "Disease"
    target_id := "MESH:D009369"
    key_sentence := "another sentence"
    created_at := 5
    curator := "bob"
    pmid := 67890 }

/-- A well-formed subgraph payload. -/
def sgSample : Subgraph :=
  { id := "11111111-2222-3333-4444-555555555555"
    name := "g"
    description := none
    payload := "x"
    created_time := 0
    owner := "u"
    version := "v1"
    db_version := "d1"
    parent := none }

/-! ### Helper lemmas -/

/-- `applySet` never changes the row id. -/
theorem applySet_id (payload : KnowledgeCuration) (now id : Int)
    (r : KnowledgeCurationRow) : (applySet payload now id r).id = r.id := by
  unfold applySet
  split <;> rfl

/-- The id test composed with `applySet` is the id test itself, because
`applySet` preserves ids; searching the updated table for the target id
therefore finds exactly the image of the original search's row. -/
theorem comp_applySet (payload : KnowledgeCuration) (now id : Int) :
    ((fun r : KnowledgeCurationRow => r.id == id) ∘ applySet payload now id) =
      (fun r : KnowledgeCurationRow => r.id == id) := by
  funext r
  simp [Function.comp, applySet_id]

/-! ### Theorems for the claims -/

/-- Claim C1 (code bug): at the concrete filter
`{"operator": "=", "field": "id", "value": "DOID:2022"}` the bounded SELECT
text assembled by `get_records` contains the caller-supplied value verbatim,
interpolated between quote characters — the value is part of the statement
text, not a bound parameter. -/
theorem select_text_contains_filter_value :
    selectSql "biomedgps_entity"
        (some (.queryItem
          { field := "id", operator := "=", value := .scalar (.s "DOID:2022") }))
        (some 1) (some 10) (some "id ASC") =
      "SELECT * FROM biomedgps_entity WHERE id = " ++ sq ++ "DOID:2022" ++ sq ++
        " ORDER BY id ASC LIMIT 10 OFFSET 0" := by
  rfl

/-- Claim C2 (code bug): `get_records` does not reject `page = 0`; it
computes `(page - 1) * page_size` in wrapping `u64` arithmetic, producing
offset `2 ^ 64 - 10` at `page = 0, page_size = 10`, and still issues both
queries. -/
theorem page_zero_not_rejected_offset_wraps :
    pageWindow (some 0) (some 10) =
      some { limit := 10, offset := 18446744073709551606 } ∧
    (get_records "biomedgps_entity" ([] : List Nat) (fun _ _ => true) none
        (some 0) (some 10) (some "id ASC")).queries.length = 2 ∧
    (get_records "biomedgps_entity" ([] : List Nat) (fun _ _ => true) none
        (some 0) (some 10) (some "id ASC")).response.page = 0 := by
  exact ⟨rfl, rfl, rfl⟩

/-- Claim C3: when `page` and `page_size` are both absent, `get_records`
applies no LIMIT/OFFSET window (the pagination fragment is empty), returns
every row matching the predicate, and reports `page = 0, page_size = 0` as
the unpaged sentinel. -/
theorem get_records_unpaged_sentinel (table_name : String) (table : List σ)
    (evalQ : ComposeQuery → σ → Bool) (query : Option ComposeQuery)
    (order_by : Option String) :
    (get_records table_name table evalQ query none none order_by).response.records =
      table.filter (whereHolds evalQ query) ∧
    (get_records table_name table evalQ query none none order_by).response.page = 0 ∧
    (get_records table_name table evalQ query none none order_by).response.page_size = 0 ∧
    pageWindow none none = none ∧
    paginationStrOf (pageWindow none none) = "" := by
  exact ⟨rfl, rfl, rfl, rfl, rfl⟩

/-- Claim C4: when exactly one of `page`/`page_size` is supplied, the
missing one is defaulted (`page` to 1, `page_size` to 10) and a LIMIT/OFFSET
window is applied, yet the response echoes 0 for the absent argument — so a
response with `page = 0` or `page_size = 0` does not imply the result was
unpaged, as the final concrete run shows (windowed to one row, `page = 0`). -/
theorem get_records_partial_pagination_defaults (table_name : String)
    (table : List σ) (evalQ : ComposeQuery → σ → Bool)
    (query : Option ComposeQuery) (order_by : Option String) (p k : Nat) :
    pageWindow (some p) none = some { limit := 10, offset := u64Mul (u64Sub p 1) 10 } ∧
    (get_records table_name table evalQ query (some p) none order_by).response.page_size = 0 ∧
    (get_records table_name table evalQ query (some p) none order_by).response.page = p ∧
    pageWindow none (some k) = some { limit := k, offset := 0 } ∧
    (get_records table_name table evalQ query none (some k) order_by).response.page = 0 ∧
    (get_records table_name table evalQ query none (some k) order_by).response.page_size = k ∧
    (get_records "t" [1, 2, 3] (fun _ _ => true) none none (some 1) none).response.page = 0 ∧
    (get_records "t" [1, 2, 3] (fun _ _ => true) none none (some 1) none).response.records = [1] := by
  refine ⟨rfl, rfl, rfl, ?_, rfl, rfl, rfl, rfl⟩
  have h1 : u64Sub 1 1 = 0 := by decide
  simp [pageWindow, u64Mul, h1]

/-- Claim C5: each `get_records` run sends exactly two statements — the
bounded SELECT and the unbounded COUNT — both built around the same compiled
predicate text `queryStrOf query`; the empty filter compiles to the
always-true `1=1`; and `total` is the full match count independent of the
requested window. -/
theorem get_records_two_queries_shared_predicate (table_name : String)
    (table : List σ) (evalQ : ComposeQuery → σ → Bool)
    (query : Option ComposeQuery) (page page_size : Option Nat)
    (order_by : Option String) :
    (get_records table_name table evalQ query page page_size order_by).queries.length = 2 ∧
    (get_records table_name table evalQ query page page_size order_by).queries =
      ["SELECT * FROM " ++ table_name ++ " WHERE " ++ queryStrOf query ++ " " ++
         orderByStrOf order_by ++ " " ++ paginationStrOf (pageWindow page page_size),
       "SELECT COUNT(*) FROM " ++ table_name ++ " WHERE " ++ queryStrOf query] ∧
    queryStrOf none = "1=1" ∧
    (get_records table_name table evalQ query page page_size order_by).response.total =
      (table.filter (whereHolds evalQ query)).length := by
  exact ⟨rfl, rfl, rfl, rfl⟩

/-- Claim C6, counterexample: with the single-element input id list
`["Chemical:C1"]` and a self-loop relation on that id, `auto_connect_nodes`
returns a non-empty edge set although the input has fewer than 2 elements —
the "fewer than 2 elements implies empty edge set" part of the claim fails. -/
theorem auto_connect_single_id_self_loop :
    (["Chemical:C1"] : List String).length < 2 ∧
    (auto_connect_nodes []
        [{ source_id := "Chemical:C1", target_id := "Chemical:C1",
           relation_type := "interacts" }]
        ["Chemical:C1"]).edges ≠ [] := by
  exact ⟨by decide, by decide⟩

/-- Claim C6, amended: every edge returned by `auto_connect_nodes` has both
`source_id` and `target_id` in the input id list, the node set never leaves
the input id set, and an empty input yields an empty edge set (a
single-element input may still yield self-loop edges on that id). -/
theorem auto_connect_nodes_endpoints_in_ids (entities : List GraphNode)
    (relations : List GraphEdge) (ids : List String) :
    (∀ e ∈ (auto_connect_nodes entities relations ids).edges,
      ids.contains e.source_id = true ∧ ids.contains e.target_id = true) ∧
    (∀ n ∈ (auto_connect_nodes entities relations ids).nodes,
      ids.contains n.id = true) ∧
    (ids = [] → (auto_connect_nodes entities relations ids).edges = []) := by
  refine ⟨?_, ?_, ?_⟩
  · intro e he
    have h := (List.mem_filter.mp he).2
    simpa using h
  · intro n hn
    exact (List.mem_filter.mp hn).2
  · rintro rfl
    simp [auto_connect_nodes]

/-- Claim C6, witness: the amended theorem applied to a concrete two-id
input whose one relation joins the two ids. -/
theorem auto_connect_nodes_endpoints_in_ids_witness :
    (["Drug:D1", "Disease:D2"] : List String).contains "Drug:D1" = true ∧
    (["Drug:D1", "Disease:D2"] : List String).contains "Disease:D2" = true := by
  have h := auto_connect_nodes_endpoints_in_ids []
    [{ source_id := "Drug:D1", target_id := "Disease:D2",
       relation_type := "treats" }]
    ["Drug:D1", "Disease:D2"]
  exact h.1
    { source_id := "Drug:D1", target_id := "Disease:D2",
      relation_type := "treats" } (by decide)

/-- Claim C7: the node-lookup and auto-connect handlers answer the empty
node-id string with a successful empty graph and issue no storage query;
and the underlying lookups on an empty id list yield an empty graph. -/
theorem empty_node_ids_empty_graph_no_query (entities : List GraphNode)
    (relations : List GraphEdge) :
    fetch_nodes entities "" = (.ok { nodes := [], edges := [] }, 0) ∧
    fetch_edges_auto_connect_nodes entities relations "" =
      (.ok { nodes := [], edges := [] }, 0) ∧
    fetch_nodes_by_ids entities [] = { nodes := [], edges := [] } ∧
    auto_connect_nodes entities relations [] = { nodes := [], edges := [] } := by
  refine ⟨rfl, rfl, ?_, ?_⟩
  · simp [fetch_nodes_by_ids]
  · simp [auto_connect_nodes, fetch_nodes_by_ids]

/-- Claim C8: a present, non-empty query string that does not parse as a
filter tree makes both `fetch_entities` and `fetch_relations` answer bad
request with no storage statement issued — the filter never reaches the
compiler or the database. -/
theorem malformed_filter_rejected_before_query
    (parseQuery : String → Option ComposeQuery)
    (paginationOk : Option Nat → Option Nat → Option String → Bool)
    (table : List σ) (evalQ : ComposeQuery → σ → Bool)
    (page page_size : Option Nat) (s : String)
    (hs : s ≠ "") (hp : parseQuery s = none) :
    (fetch_entities parseQuery table evalQ page page_size (some s)).1.isBadRequest = true ∧
    (fetch_entities parseQuery table evalQ page page_size (some s)).2 = [] ∧
    (fetch_relations paginationOk parseQuery table evalQ page page_size (some s)).1.isBadRequest = true ∧
    (fetch_relations paginationOk parseQuery table evalQ page page_size (some s)).2 = [] := by
  have he : fetch_entities parseQuery table evalQ page page_size (some s) =
      (.badRequest "Failed to parse query string", []) := by
    unfold fetch_entities
    simp only [Option.getD_some, if_neg hs, hp]
  have hr : fetch_relations paginationOk parseQuery table evalQ page page_size (some s) =
      (.badRequest "Failed to parse query string", []) := by
    unfold fetch_relations
    cases hpag : paginationOk page page_size (some s) with
    | false => simp [hpag]
    | true => simp only [hpag, Option.getD_some, if_neg hs, hp]; simp
  rw [he, hr]
  exact ⟨rfl, rfl, rfl, rfl⟩

/-- Claim C8, witness: the theorem applied at a concrete non-empty,
unparseable query string. -/
theorem malformed_filter_rejected_before_query_witness :
    ("notjson" : String) ≠ "" ∧
    (fetch_entities (fun _ => none) ([] : List Nat) (fun _ _ => true) none none
        (some "notjson")).1.isBadRequest = true ∧
    (fetch_entities (fun _ => none) ([] : List Nat) (fun _ _ => true) none none
        (some "notjson")).2 = [] := by
  have h := malformed_filter_rejected_before_query (fun _ => none)
    (fun _ _ _ => true) ([] : List Nat) (fun _ _ => true) none none "notjson"
    (by decide) rfl
  exact ⟨by decide, h.1, h.2.1⟩

/-- Claim C9, counterexample: updating a curated-knowledge row whose id has
no stored match answers a bad-request response, not a NotFound one (the
stored table is indeed unchanged). -/
theorem update_missing_row_answers_bad_request :
    (put_curated_knowledge (fun _ => true) [] kcSample 1 0).1 =
      PostResp.badRequest "Failed to insert curated knowledge" ∧
    (put_curated_knowledge (fun _ => true) [] kcSample 1 0).1.isNotFound = false ∧
    (put_curated_knowledge (fun _ => true) [] kcSample 1 0).2 = [] := by
  exact ⟨rfl, rfl, rfl⟩

/-- Claim C9, amended: a delete aimed at a missing id fails with NotFound
and leaves the stored data unchanged (KnowledgeCuration and Subgraph); an
update aimed at a missing id also fails and leaves the stored data
unchanged, but the failure is reported as a bad-request response, not as
NotFound. -/
theorem missing_row_delete_not_found_update_bad_request
    (db : List KnowledgeCurationRow) (sdb : List Subgraph)
    (payload : KnowledgeCuration) (spayload : Subgraph)
    (validate : KnowledgeCuration → Bool) (svalidate : Subgraph → Bool)
    (subgraphIdOk : String → Bool) (id : Int) (sid : String) (now : Int)
    (hid : ¬ id < 0) (hv : validate payload = true)
    (hsv : svalidate spayload = true) (hio : subgraphIdOk sid = true)
    (hmiss : db.find? (fun r => r.id == id) = none)
    (hsmiss : sdb.find? (fun r => r.id == sid) = none) :
    delete_curated_knowledge db id =
      (.notFound "Failed to delete curated knowledge", db) ∧
    put_curated_knowledge validate db payload id now =
      (.badRequest "Failed to insert curated knowledge", db) ∧
    delete_subgraph subgraphIdOk sdb sid =
      (.notFound "Failed to delete a subgraph", sdb) ∧
    put_subgraph subgraphIdOk svalidate sdb sid spayload =
      (.badRequest "Failed to update subgraph", sdb) := by
  refine ⟨?_, ?_, ?_, ?_⟩
  · unfold delete_curated_knowledge KnowledgeCuration.delete
    rw [if_neg hid, hmiss]
  · unfold put_curated_knowledge KnowledgeCuration.update
    simp [hid, hv, comp_applySet, hmiss]
  · unfold delete_subgraph Subgraph.delete
    rw [hsmiss]
    simp [hio]
  · unfold put_subgraph Subgraph.update
    simp [hio, hsv]

/-- Claim C9, witness: the amended theorem applied to empty tables, a
non-negative id and validators that accept the sample payloads. -/
theorem missing_row_delete_not_found_update_bad_request_witness :
    delete_curated_knowledge [] 1 =
      (.notFound "Failed to delete curated knowledge", []) ∧
    put_curated_knowledge (fun _ => true) [] kcSample 1 0 =
      (.badRequest "Failed to insert curated knowledge", []) ∧
    delete_subgraph (fun _ => true) [] "s1" =
      (.notFound "Failed to delete a subgraph", []) ∧
    put_subgraph (fun _ => true) (fun _ => true) [] "s1" sgSample =
      (.badRequest "Failed to update subgraph", []) := by
  exact missing_row_delete_not_found_update_bad_request [] [] kcSample sgSample
    (fun _ => true) (fun _ => true) (fun _ => true) 1 "s1" 0
    (by decide) rfl rfl rfl rfl rfl

/-- Claim C10: when a stored row matches the target id,
`KnowledgeCuration::update` succeeds, the stored table becomes the mapped
one, and the updated row keeps the stored `curator` (and `relation_id`,
both absent from the SET list), takes `created_at` from the current time,
and takes every SET-list field from the payload. -/
theorem update_keeps_curator_overwrites_created_at
    (db : List KnowledgeCurationRow) (payload : KnowledgeCuration)
    (id now : Int) (r : KnowledgeCurationRow)
    (hfind : db.find? (fun r => r.id == id) = some r) :
    KnowledgeCuration.update payload db id now =
      .ok ((applySet payload now id r).data, db.map (applySet payload now id)) ∧
    (applySet payload now id r).data.curator = r.data.curator ∧
    (applySet payload now id r).data.relation_id = r.data.relation_id ∧
    (applySet payload now id r).data.created_at = now ∧
    (applySet payload now id r).data.relation_type = payload.relation_type ∧
    (applySet payload now id r).data.source_name = payload.source_name ∧
    (applySet payload now id r).data.source_type = payload.source_type ∧
    (applySet payload now id r).data.source_id = payload.source_id ∧
    (applySet payload now id r).data.target_name = payload.target_name ∧
    (applySet payload now id r).data.target_type = payload.target_type ∧
    (applySet payload now id r).data.target_id = payload.target_id ∧
    (applySet payload now id r).data.key_sentence = payload.key_sentence ∧
    (applySet payload now id r).data.pmid = payload.pmid := by
  have hr : (r.id == id) = true := by
    have h := List.find?_some hfind
    simpa using h
  refine ⟨?_, ?_, ?_, ?_, ?_, ?_, ?_, ?_, ?_, ?_, ?_, ?_, ?_⟩
  · unfold KnowledgeCuration.update
    simp [comp_applySet, hfind]
  all_goals simp [applySet, hr]

/-- Claim C10, witness: the theorem applied to a one-row table whose row id
matches; the updated row keeps curator "alice" and gets the new time 42. -/
theorem update_keeps_curator_overwrites_created_at_witness :
    ([⟨7, kcSample⟩] : List KnowledgeCurationRow).find?
        (fun r => r.id == 7) = some ⟨7, kcSample⟩ ∧
    (applySet kcSample2 42 7 ⟨7, kcSample⟩).data.curator = "alice" ∧
    (applySet kcSample2 42 7 ⟨7, kcSample⟩).data.created_at = 42 ∧
    (applySet kcSample2 42 7 ⟨7, kcSample⟩).data.relation_type = "causes" := by
  have h := update_keeps_curator_overwrites_created_at
    [⟨7, kcSample⟩] kcSample2 7 42 ⟨7, kcSample⟩ rfl
  exact ⟨rfl, h.2.1, h.2.2.2.1, h.2.2.2.2.1⟩

end Biomedgps
